import Mathlib

/-!
Shallow embedding of the LogPath logging library (TypeScript).

Part 1: the configuration store (`ConfigService` in `config.service.ts`):
`validateConfig`, `mergeConfig`, `setConfig`, with the built-in
`DEFAULT_CONFIG`.

JavaScript runtime values that can sit in a config field are modelled by
`Prim` (booleans and strings; an absent field is `Option.none`).  A partial
config carries an `isArray` flag recording whether the underlying JS value
is an array (`Array.isArray`), since `validateConfig` tests exactly that on
the whole object in multiple mode.  Operations that can raise a runtime
`TypeError` (reading `.every` of `undefined`, spreading `undefined` into an
array literal) return `Option.none`.
-/

/-- A primitive JavaScript value occupying a config field. -/
inductive Prim where
  | b (x : Bool)
  | s (x : String)
deriving DecidableEq, Repr

/-- JavaScript truthiness of a primitive: `false` and `""` are falsy. -/
def jsTruthy : Prim → Bool
  | .b x => x
  | .s x => !(x = "")

/-- The `LogLevel` constant array from `log-level.type.ts`. -/
def LogLevel : List String := ["debug", "info", "warn", "error"]

/-- `isValidLogLevel`: `LogLevel.indexOf(x) !== -1`.  `indexOf` uses strict
equality, so a non-string value never matches. -/
def isValidLogLevel : Prim → Bool
  | .s x => LogLevel.contains x
  | _ => false

/-- One `endpointParams` entry (`LogLevelTo` in the interface file); the
fields hold arbitrary runtime values so malformed entries are expressible. -/
structure LogLevelTo where
  logLevel : Prim
  endpoint : Prim
deriving DecidableEq, Repr

/-- The stored configuration object.  After merges the object can carry both
endpoint-shape fields at once (object spread never deletes), so both are
optional; `devMode` and `logMode` are always present (the default config has
them and every successful merge overlays them). -/
structure StoredConfig where
  devMode : Prim
  logMode : Prim
  endpoint : Option Prim
  endpointParams : Option (List LogLevelTo)
deriving DecidableEq, Repr

/-- `DEFAULT_CONFIG` from `shared/default-config.ts`. -/
def DEFAULT_CONFIG : StoredConfig :=
  { devMode := .b true
  , logMode := .s "single"
  , endpoint := some (.s "http://default-endpoint.com")
  , endpointParams := none }

/-- A runtime value passed to `setConfig` (typed `Partial<LogConfig>`).
`isArray` records `Array.isArray` on the value itself; the named fields are
its own properties (`none` = property absent). -/
structure PartialConfig where
  isArray : Bool
  devMode : Option Prim
  logMode : Option Prim
  endpoint : Option Prim
  endpointParams : Option (List LogLevelTo)
deriving DecidableEq, Repr

/-- Whether an `endpointParams` element passes
`isValidLogLevel(logLevel) && typeof endpoint === 'string'`. -/
def validEndpointParam (e : LogLevelTo) : Bool :=
  isValidLogLevel e.logLevel &&
    (match e.endpoint with
     | .s _ => true
     | _ => false)

/-- `ConfigService.validateConfig`.  Returns `some b` for a normal boolean
result and `none` when the JS code would raise a `TypeError` (multiple mode
on an array value whose `endpointParams` property is absent). -/
def validateConfig (c : PartialConfig) : Option Bool :=
  match c.devMode, c.logMode with
  | some (.b _), some (.s m) =>
    if m = "single" then
      some (match c.endpoint with
            | some (.s _) => true
            | _ => false)
    else if m = "multiple" then
      if c.isArray then
        match c.endpointParams with
        | none => none
        | some l => some (l.all validEndpointParam)
      else
        some false
    else
      some false
  | _, _ => some false

/-- The plain object spread `{...existingConfig, ...newConfig}`: a property
present on the incoming value overwrites, otherwise the existing one is
kept. -/
def overlayConfig (e : StoredConfig) (n : PartialConfig) : StoredConfig :=
  { devMode := n.devMode.getD e.devMode
  , logMode := n.logMode.getD e.logMode
  , endpoint := match n.endpoint with
      | some p => some p
      | none => e.endpoint
  , endpointParams := match n.endpointParams with
      | some l => some l
      | none => e.endpointParams }

/-- `ConfigService.mergeConfig`.  `none` models the `TypeError` raised by
spreading an absent `endpointParams` of the existing multiple-mode config
into an array literal. -/
def mergeConfig (e : StoredConfig) (n : PartialConfig) : Option StoredConfig :=
  let modeChanging : Bool :=
    match n.logMode with
    | some p => jsTruthy p && !(p = e.logMode)
    | none => false
  if modeChanging then
    let base := overlayConfig e n
    if n.logMode = some (Prim.s "single") then
      let ep : Prim :=
        match n.endpoint with
        | some p => if jsTruthy p then p else Prim.s "http://default-endpoint.com"
        | none => Prim.s "http://default-endpoint.com"
      some { base with endpoint := some ep }
    else
      some { base with endpointParams := some (n.endpointParams.getD []) }
  else
    let base := overlayConfig e n
    if e.logMode = Prim.s "multiple" && !(n.logMode = some (Prim.s "single")) then
      match e.endpointParams with
      | none => none
      | some l => some { base with endpointParams := some (l ++ n.endpointParams.getD []) }
    else
      some base

/-- `ConfigService.setConfig`: validate, throw (`none`) on failure or on a
merge-time `TypeError`, otherwise store the merged config. -/
def setConfig (stored : StoredConfig) (c : PartialConfig) : Option StoredConfig :=
  match validateConfig c with
  | some true => mergeConfig stored c
  | _ => none

/-- `ConfigService.getConfig`: the stored configuration snapshot. -/
def getConfig (stored : StoredConfig) : StoredConfig := stored

/-- State transition observed by callers: on any error the assignment to
`ConfigService.config` never happens, so the stored value is unchanged. -/
def applyConfig (stored : StoredConfig) (c : PartialConfig) : StoredConfig :=
  (setConfig stored c).getD stored

/-!
Part 2: the `LogPath` decorator (`log-path.ts`): the per-owner correlation
registry kept in the module-level `contexts` map, the `LogData` record
builders `logEntry` / `logExit` / `logError`, the `message` formatter and
the `sendLog` router.

Owners (the `this` receivers used as map keys) are modelled by naturals and
the registry by a function `Nat → Option ProcessContext`; the fresh UUID a
call draws is passed in explicitly.  Timestamps (`new Date().toISOString()`
and `Date.now()`) are likewise explicit parameters.  `sendLog`'s observable
behaviour is a `SendEffect`: the console lines it prints and the (endpoint,
record) deliveries it performs.
-/

/-- `ProcessContext` from `context.interface.ts`. -/
structure ProcessContext where
  processId : String
  parentId : Option String
deriving DecidableEq, Repr

/-- The `contexts` map restricted to its observable interface. -/
def Registry : Type := Nat → Option ProcessContext

/-- `contexts.set(owner, ctx)`. -/
def setCtx (reg : Registry) (owner : Nat) (ctx : ProcessContext) : Registry :=
  fun o => if o = owner then some ctx else reg o

/-- `contexts.delete(owner)`. -/
def deleteCtx (reg : Registry) (owner : Nat) : Registry :=
  fun o => if o = owner then none else reg o

/-- The context-acquisition prologue of `descriptor.value` (the
`isTopLevel` / `!contexts.has(this)` / existing-entry branching), returning
the context for this call and the updated registry. -/
def obtainContext (isTopLevel : Bool) (reg : Registry) (owner : Nat)
    (fresh : String) : ProcessContext × Registry :=
  if isTopLevel then
    ({ processId := fresh, parentId := none }, reg)
  else
    match reg owner with
    | none =>
      let ctx : ProcessContext := { processId := fresh, parentId := none }
      (ctx, setCtx reg owner ctx)
    | some existing =>
      let ctx : ProcessContext :=
        { processId := fresh, parentId := some existing.processId }
      (ctx, setCtx reg owner ctx)

/-- `LogData` from `log-path.interface.ts`; arguments are modelled as
strings. -/
structure LogData where
  processId : String
  parentId : Option String
  logLevel : String
  className : String
  methodName : String
  action : String
  timestamp : Nat
  message : String
  error : Option String
  args : Option (List String)
deriving DecidableEq, Repr

/-- The `message` template literal: `parentId ? ... : ...` (an empty-string
parent is falsy). -/
def message (now : String) (logLevel : String) (processId : String)
    (className : String) (methodName : String) (action : String)
    (parentId : Option String) : String :=
  if (match parentId with | some p => jsTruthy (Prim.s p) | none => false) then
    now ++ " [" ++ logLevel ++ ": " ++ (parentId.getD "") ++ " > " ++ processId
      ++ "]: " ++ action ++ " " ++ className ++ "." ++ methodName
  else
    now ++ " [" ++ logLevel ++ ": " ++ processId ++ "]: " ++ action ++ " "
      ++ className ++ "." ++ methodName

/-- `logEntry`: builds the Enter record; `args` is attached only when the
call is not sensitive.  (The source then hands the record to `sendLog`;
the wrapper below does that.) -/
def logEntry (context : ProcessContext) (className : String)
    (methodName : String) (args : List String) (logLevel : String)
    (isSensitive : Bool) (now : String) (ts : Nat) : LogData :=
  let base : LogData :=
    { processId := context.processId
    , parentId := context.parentId
    , logLevel := logLevel
    , className := className
    , methodName := methodName
    , action := "Enter"
    , timestamp := ts
    , message := message now logLevel context.processId className methodName
        "Enter" context.parentId
    , error := none
    , args := none }
  if isSensitive then base else { base with args := some args }

/-- `logExit`: builds the Exit record. -/
def logExit (context : ProcessContext) (className : String)
    (methodName : String) (logLevel : String) (now : String) (ts : Nat) :
    LogData :=
  { processId := context.processId
  , parentId := context.parentId
  , logLevel := logLevel
  , className := className
  , methodName := methodName
  , action := "Exit"
  , timestamp := ts
  , message := message now logLevel context.processId className methodName
      "Exit" context.parentId
  , error := none
  , args := none }

/-- `logError`: builds the Error record.  Note the source passes the
literal action `'Enter'` to `message` here while setting the record's
`action` field to `'Error'`. -/
def logError (context : ProcessContext) (className : String)
    (methodName : String) (error : String) (now : String) (ts : Nat) :
    LogData :=
  { processId := context.processId
  , parentId := context.parentId
  , logLevel := "error"
  , className := className
  , methodName := methodName
  , action := "Error"
  , timestamp := ts
  , message := message now "error" context.processId className methodName
      "Enter" context.parentId
  , error := some error
  , args := none }

/-- `JSON.stringify` of the (string-valued) args array. -/
def jsonArgs (xs : List String) : String :=
  "[" ++ String.intercalate "," (xs.map (fun x => "\"" ++ x ++ "\"")) ++ "]"

/-- Observable effect of one `sendLog` call: console lines printed and
(endpoint, record) pairs delivered to remote sinks. -/
structure SendEffect where
  consoleLines : List String
  deliveries : List (String × LogData)
deriving DecidableEq, Repr

/-- `sendLog`: in dev mode prints the message (args appended as JSON when
present and non-empty) and returns.  Every remote-delivery path in the
source is commented out, so outside dev mode the function does nothing. -/
def sendLog (config : StoredConfig) (logData : LogData) (_logLevel : String) :
    SendEffect :=
  if jsTruthy config.devMode then
    let line :=
      match logData.args with
      | some (a :: rest) => logData.message ++ " with args " ++ jsonArgs (a :: rest)
      | _ => logData.message
    { consoleLines := [line], deliveries := [] }
  else
    { consoleLines := [], deliveries := [] }

/-- Decorator options (`LogPathOptions`), after the wrapper's truthiness
defaulting of the two boolean flags (`options.isTopLevel` truthy test,
`options.isSensitive || false`). -/
structure LogPathOptions where
  isTopLevel : Bool
  isSensitive : Bool
  logLevel : Option String
deriving DecidableEq, Repr

/-- How the wrapped method's body behaved: a synchronous return, a
synchronous throw, or a Promise that resolves or rejects. -/
inductive BodyResult where
  | syncOk (v : String)
  | syncThrow (e : String)
  | asyncOk (v : String)
  | asyncErr (e : String)
deriving DecidableEq, Repr

/-- Whether the body threw synchronously (before the wrapper's epilogue
could run). -/
def BodyResult.isSyncThrow : BodyResult → Bool
  | .syncThrow _ => true
  | _ => false

/-- What the instrumented call does for its caller: return a value or
propagate a failure. -/
inductive CallOutcome where
  | ret (v : String)
  | thrown (e : String)
deriving DecidableEq, Repr

/-- Everything observable about one run of the wrapper. -/
structure InvokeResult where
  context : ProcessContext
  records : List LogData
  effects : List SendEffect
  registry : Registry
  outcome : CallOutcome

/-- The wrapped method body of `descriptor.value`.  `bodyEff` is whatever
the body itself did to the `contexts` registry (e.g. nested decorated
calls); `body` is its outcome; `nowE`/`tsE` and `nowX`/`tsX` are the clock
readings taken at entry and at exit/error time.  A synchronous throw
escapes at `originalMethod.apply`, skipping exit logging and the
top-level `contexts.delete(this)`. -/
def logPathInvoke (options : LogPathOptions) (config : StoredConfig)
    (className methodName : String) (args : List String) (owner : Nat)
    (fresh : String) (reg : Registry) (bodyEff : Registry → Registry)
    (body : BodyResult) (nowE : String) (tsE : Nat) (nowX : String)
    (tsX : Nat) : InvokeResult :=
  let acquired := obtainContext options.isTopLevel reg owner fresh
  let context := acquired.1
  let reg1 := acquired.2
  let logLevel :=
    match options.logLevel with
    | some l => if jsTruthy (Prim.s l) then l else "info"
    | none => "info"
  let enterRec := logEntry context className methodName args logLevel
    options.isSensitive nowE tsE
  let enterEff := sendLog config enterRec logLevel
  let reg2 := bodyEff reg1
  match body with
  | .syncThrow e =>
    { context := context
    , records := [enterRec]
    , effects := [enterEff]
    , registry := reg2
    , outcome := .thrown e }
  | .syncOk v =>
    let exitRec := logExit context className methodName logLevel nowX tsX
    { context := context
    , records := [enterRec, exitRec]
    , effects := [enterEff, sendLog config exitRec logLevel]
    , registry := if options.isTopLevel then deleteCtx reg2 owner else reg2
    , outcome := .ret v }
  | .asyncOk v =>
    let exitRec := logExit context className methodName logLevel nowX tsX
    { context := context
    , records := [enterRec, exitRec]
    , effects := [enterEff, sendLog config exitRec logLevel]
    , registry := if options.isTopLevel then deleteCtx reg2 owner else reg2
    , outcome := .ret v }
  | .asyncErr e =>
    let errRec := logError context className methodName e nowX tsX
    { context := context
    , records := [enterRec, errRec]
    , effects := [enterEff, sendLog config errRec "error"]
    , registry := if options.isTopLevel then deleteCtx reg2 owner else reg2
    , outcome := .thrown e }

/-!
Part 3: predicates used to state the claims.
-/

/-- An invalid partial configuration in the sense of the spec: `devMode`
absent or non-boolean, `logMode` absent or unrecognized, single mode with a
non-string `endpoint`, or multiple mode with a malformed `endpointParams`
element. -/
def invalidPartial (c : PartialConfig) : Prop :=
  (∀ b, c.devMode ≠ some (Prim.b b))
  ∨ (c.logMode ≠ some (Prim.s "single") ∧ c.logMode ≠ some (Prim.s "multiple"))
  ∨ (c.logMode = some (Prim.s "single") ∧ ∀ s, c.endpoint ≠ some (Prim.s s))
  ∨ (∃ l e, c.logMode = some (Prim.s "multiple") ∧ c.endpointParams = some l ∧
      e ∈ l ∧ validEndpointParam e = false)

/-- The stored configuration is single-mode with a string endpoint. -/
def singleStringInv (st : StoredConfig) : Prop :=
  st.logMode = Prim.s "single" ∧ ∃ s, st.endpoint = some (Prim.s s)

/-!
Part 4: theorems.
-/

/-- Shape of any partial configuration that passes `validateConfig`. -/
theorem validateConfig_eq_true {c : PartialConfig}
    (h : validateConfig c = some true) :
    (∃ b, c.devMode = some (Prim.b b)) ∧
    ((c.logMode = some (Prim.s "single") ∧ ∃ s, c.endpoint = some (Prim.s s)) ∨
     (c.logMode = some (Prim.s "multiple") ∧ c.isArray = true ∧
      ∃ l, c.endpointParams = some l ∧ l.all validEndpointParam = true)) := by
  obtain ⟨arr, dm, lm, ep, eps⟩ := c
  cases dm with
  | none => simp [validateConfig] at h
  | some pd =>
    cases pd with
    | s sd => simp [validateConfig] at h
    | b bd =>
      cases lm with
      | none => simp [validateConfig] at h
      | some pl =>
        cases pl with
        | b bl => simp [validateConfig] at h
        | s sl =>
          by_cases hs : sl = "single"
          · subst hs
            refine ⟨⟨bd, rfl⟩, Or.inl ⟨rfl, ?_⟩⟩
            cases ep with
            | none => simp [validateConfig] at h
            | some pe =>
              cases pe with
              | b bb => simp [validateConfig] at h
              | s se => exact ⟨se, rfl⟩
          · by_cases hm : sl = "multiple"
            · subst hm
              cases arr with
              | false => simp [validateConfig] at h
              | true =>
                cases eps with
                | none => simp [validateConfig] at h
                | some l =>
                  refine ⟨⟨bd, rfl⟩, Or.inr ⟨rfl, rfl, l, rfl, ?_⟩⟩
                  simpa [validateConfig] using h
            · simp [validateConfig, hs, hm] at h

/-- C1: a partial config shaped `{ devMode: boolean, logMode: 'multiple',
endpointParams: [...] }` that is an object and not an array always fails
validation (the code tests `Array.isArray` on the whole config), so
`setConfig` throws and the stored configuration is unchanged. -/
theorem c1_multiple_object_always_rejected (st : StoredConfig)
    (c : PartialConfig) (b : Bool) (ps : List LogLevelTo)
    (hdev : c.devMode = some (Prim.b b))
    (hmode : c.logMode = some (Prim.s "multiple"))
    (hps : c.endpointParams = some ps)
    (harr : c.isArray = false) :
    validateConfig c = some false ∧ setConfig st c = none ∧
      getConfig (applyConfig st c) = getConfig st := by
  have hv : validateConfig c = some false := by
    simp [validateConfig, hdev, hmode, harr]
  exact ⟨hv, by simp [setConfig, hv], by simp [applyConfig, setConfig, hv, getConfig]⟩

/-- Witness for C1 at a concrete non-array multiple-mode config. -/
theorem c1_multiple_object_always_rejected_witness :
    validateConfig
      { isArray := false, devMode := some (Prim.b true)
      , logMode := some (Prim.s "multiple"), endpoint := none
      , endpointParams := some [{ logLevel := Prim.s "info", endpoint := Prim.s "http://a.com" }] }
      = some false ∧
    setConfig DEFAULT_CONFIG
      { isArray := false, devMode := some (Prim.b true)
      , logMode := some (Prim.s "multiple"), endpoint := none
      , endpointParams := some [{ logLevel := Prim.s "info", endpoint := Prim.s "http://a.com" }] }
      = none ∧
    getConfig (applyConfig DEFAULT_CONFIG
      { isArray := false, devMode := some (Prim.b true)
      , logMode := some (Prim.s "multiple"), endpoint := none
      , endpointParams := some [{ logLevel := Prim.s "info", endpoint := Prim.s "http://a.com" }] })
      = getConfig DEFAULT_CONFIG :=
  c1_multiple_object_always_rejected DEFAULT_CONFIG _ true
    [{ logLevel := Prim.s "info", endpoint := Prim.s "http://a.com" }] rfl rfl rfl rfl

/-- C2: every invalid partial configuration (devMode absent or non-boolean,
logMode absent or unrecognized, single mode with non-string endpoint, or
multiple mode with a malformed `endpointParams` element) is rejected by
`setConfig` and leaves the stored configuration unchanged. -/
theorem c2_invalid_rejected_atomic (st : StoredConfig) (c : PartialConfig)
    (h : invalidPartial c) :
    setConfig st c = none ∧ getConfig (applyConfig st c) = getConfig st := by
  have hv : validateConfig c ≠ some true := by
    intro ht
    obtain ⟨⟨b, hb⟩, hrest⟩ := validateConfig_eq_true ht
    rcases h with h1 | h2 | h3 | h4
    · exact h1 b hb
    · rcases hrest with ⟨hm, _⟩ | ⟨hm, _⟩
      · exact h2.1 hm
      · exact h2.2 hm
    · rcases h3 with ⟨hm, hep⟩
      rcases hrest with ⟨_, s, hs⟩ | ⟨hm2, _⟩
      · exact hep s hs
      · rw [hm] at hm2
        exact absurd hm2 (by decide)
    · rcases h4 with ⟨l, e, hm, hl, hmem, hbad⟩
      rcases hrest with ⟨hm2, _⟩ | ⟨_, _, l2, hl2, hall⟩
      · rw [hm] at hm2
        exact absurd hm2 (by decide)
      · rw [hl] at hl2
        injection hl2 with hl3
        subst hl3
        have hgood := List.all_eq_true.mp hall e hmem
        rw [hbad] at hgood
        exact Bool.noConfusion hgood
  have hset : setConfig st c = none := by
    cases hvc : validateConfig c with
    | none => simp [setConfig, hvc]
    | some bv =>
      cases bv with
      | true => exact absurd hvc hv
      | false => simp [setConfig, hvc]
  exact ⟨hset, by simp [applyConfig, hset, getConfig]⟩

/-- Witness for C2 at a concrete partial with no `devMode`. -/
theorem c2_invalid_rejected_atomic_witness :
    setConfig DEFAULT_CONFIG
      { isArray := false, devMode := none, logMode := some (Prim.s "single")
      , endpoint := some (Prim.s "http://a.com"), endpointParams := none } = none ∧
    getConfig (applyConfig DEFAULT_CONFIG
      { isArray := false, devMode := none, logMode := some (Prim.s "single")
      , endpoint := some (Prim.s "http://a.com"), endpointParams := none })
      = getConfig DEFAULT_CONFIG :=
  c2_invalid_rejected_atomic DEFAULT_CONFIG _
    (Or.inl (fun b hb => Option.noConfusion hb))

/-- C3: from an existing multiple-mode config with entries `ab`, a valid
multiple-mode set with entries `cs` and no mode change concatenates
(`ab ++ cs`); switching to single mode and back to multiple with `cs`
yields exactly `cs`. -/
theorem c3_multiple_merge_additive (e : StoredConfig)
    (ab cs : List LogLevelTo) (nm nsingle nmulti : PartialConfig)
    (hemode : e.logMode = Prim.s "multiple")
    (heps : e.endpointParams = some ab)
    (hvm : validateConfig nm = some true)
    (hmmode : nm.logMode = some (Prim.s "multiple"))
    (hmeps : nm.endpointParams = some cs)
    (hvs : validateConfig nsingle = some true)
    (hsmode : nsingle.logMode = some (Prim.s "single"))
    (hvm2 : validateConfig nmulti = some true)
    (hm2mode : nmulti.logMode = some (Prim.s "multiple"))
    (hm2eps : nmulti.endpointParams = some cs) :
    ((setConfig e nm).map StoredConfig.endpointParams = some (some (ab ++ cs))) ∧
    (setConfig e nsingle).isSome = true ∧
    (applyConfig e nsingle).logMode = Prim.s "single" ∧
    ((setConfig (applyConfig e nsingle) nmulti).map StoredConfig.endpointParams
      = some (some cs)) := by
  have h1 : setConfig e nm = mergeConfig e nm := by simp [setConfig, hvm]
  have hpart1 : (setConfig e nm).map StoredConfig.endpointParams
      = some (some (ab ++ cs)) := by
    rw [h1]
    simp [mergeConfig, hmmode, hemode, heps, hmeps, jsTruthy]
  have h2 : setConfig e nsingle = mergeConfig e nsingle := by simp [setConfig, hvs]
  have hr1 : ∃ r1, setConfig e nsingle = some r1 ∧ r1.logMode = Prim.s "single" := by
    rw [h2]
    simp only [mergeConfig, hsmode, hemode, jsTruthy]
    simp [overlayConfig, hsmode]
  obtain ⟨r1, hr1eq, hr1mode⟩ := hr1
  have happ : applyConfig e nsingle = r1 := by simp [applyConfig, hr1eq]
  have h3 : setConfig r1 nmulti = mergeConfig r1 nmulti := by simp [setConfig, hvm2]
  have hpart2 : (setConfig r1 nmulti).map StoredConfig.endpointParams
      = some (some cs) := by
    rw [h3]
    simp [mergeConfig, hm2mode, hr1mode, hm2eps, jsTruthy]
  refine ⟨hpart1, ?_, ?_, ?_⟩
  · rw [hr1eq]; rfl
  · rw [happ, hr1mode]
  · rw [happ]; exact hpart2

/-- Witness for C3 at a concrete pair of entries `[A,B]` and `[C]`. -/
theorem c3_multiple_merge_additive_witness :
    ((setConfig
        { devMode := Prim.b true, logMode := Prim.s "multiple", endpoint := none
        , endpointParams := some
            [ { logLevel := Prim.s "info", endpoint := Prim.s "http://a.com" }
            , { logLevel := Prim.s "warn", endpoint := Prim.s "http://b.com" } ] }
        { isArray := true, devMode := some (Prim.b true)
        , logMode := some (Prim.s "multiple"), endpoint := none
        , endpointParams := some
            [ { logLevel := Prim.s "error", endpoint := Prim.s "http://c.com" } ] }).map
      StoredConfig.endpointParams = some (some
        [ { logLevel := Prim.s "info", endpoint := Prim.s "http://a.com" }
        , { logLevel := Prim.s "warn", endpoint := Prim.s "http://b.com" }
        , { logLevel := Prim.s "error", endpoint := Prim.s "http://c.com" } ])) ∧
    (setConfig
        { devMode := Prim.b true, logMode := Prim.s "multiple", endpoint := none
        , endpointParams := some
            [ { logLevel := Prim.s "info", endpoint := Prim.s "http://a.com" }
            , { logLevel := Prim.s "warn", endpoint := Prim.s "http://b.com" } ] }
        { isArray := false, devMode := some (Prim.b true)
        , logMode := some (Prim.s "single"), endpoint := some (Prim.s "http://s.com")
        , endpointParams := none }).isSome = true ∧
    (applyConfig
        { devMode := Prim.b true, logMode := Prim.s "multiple", endpoint := none
        , endpointParams := some
            [ { logLevel := Prim.s "info", endpoint := Prim.s "http://a.com" }
            , { logLevel := Prim.s "warn", endpoint := Prim.s "http://b.com" } ] }
        { isArray := false, devMode := some (Prim.b true)
        , logMode := some (Prim.s "single"), endpoint := some (Prim.s "http://s.com")
        , endpointParams := none }).logMode = Prim.s "single" ∧
    ((setConfig
        (applyConfig
          { devMode := Prim.b true, logMode := Prim.s "multiple", endpoint := none
          , endpointParams := some
              [ { logLevel := Prim.s "info", endpoint := Prim.s "http://a.com" }
              , { logLevel := Prim.s "warn", endpoint := Prim.s "http://b.com" } ] }
          { isArray := false, devMode := some (Prim.b true)
          , logMode := some (Prim.s "single"), endpoint := some (Prim.s "http://s.com")
          , endpointParams := none })
        { isArray := true, devMode := some (Prim.b true)
        , logMode := some (Prim.s "multiple"), endpoint := none
        , endpointParams := some
            [ { logLevel := Prim.s "error", endpoint := Prim.s "http://c.com" } ] }).map
      StoredConfig.endpointParams = some (some
        [ { logLevel := Prim.s "error", endpoint := Prim.s "http://c.com" } ])) :=
  c3_multiple_merge_additive
    { devMode := Prim.b true, logMode := Prim.s "multiple", endpoint := none
    , endpointParams := some
        [ { logLevel := Prim.s "info", endpoint := Prim.s "http://a.com" }
        , { logLevel := Prim.s "warn", endpoint := Prim.s "http://b.com" } ] }
    [ { logLevel := Prim.s "info", endpoint := Prim.s "http://a.com" }
    , { logLevel := Prim.s "warn", endpoint := Prim.s "http://b.com" } ]
    [ { logLevel := Prim.s "error", endpoint := Prim.s "http://c.com" } ]
    { isArray := true, devMode := some (Prim.b true)
    , logMode := some (Prim.s "multiple"), endpoint := none
    , endpointParams := some
        [ { logLevel := Prim.s "error", endpoint := Prim.s "http://c.com" } ] }
    { isArray := false, devMode := some (Prim.b true)
    , logMode := some (Prim.s "single"), endpoint := some (Prim.s "http://s.com")
    , endpointParams := none }
    { isArray := true, devMode := some (Prim.b true)
    , logMode := some (Prim.s "multiple"), endpoint := none
    , endpointParams := some
        [ { logLevel := Prim.s "error", endpoint := Prim.s "http://c.com" } ] }
    rfl rfl (by decide) rfl rfl (by decide) rfl (by decide) rfl rfl

/-- C4: a non-top-level invocation whose owner already has a registry entry
gets a fresh context whose `parentId` is the prior entry's `processId`, and
that context replaces the stored entry; with no prior entry the fresh
context has no parent and is stored. -/
theorem c4_child_context_links_parent (reg : Registry) (owner : Nat)
    (fresh : String) (ex : ProcessContext) :
    (reg owner = some ex →
      (obtainContext false reg owner fresh).1 =
        { processId := fresh, parentId := some ex.processId } ∧
      (obtainContext false reg owner fresh).2 owner =
        some { processId := fresh, parentId := some ex.processId }) ∧
    (reg owner = none →
      (obtainContext false reg owner fresh).1 =
        { processId := fresh, parentId := none } ∧
      (obtainContext false reg owner fresh).2 owner =
        some { processId := fresh, parentId := none }) := by
  constructor <;> intro h <;> simp [obtainContext, h, setCtx]

/-- Witness for C4: one owner with an entry, one without. -/
theorem c4_child_context_links_parent_witness :
    ((obtainContext false
        (fun o => if o = 0 then some { processId := "p0", parentId := none } else none)
        0 "p1").1 = { processId := "p1", parentId := some "p0" } ∧
      (obtainContext false
        (fun o => if o = 0 then some { processId := "p0", parentId := none } else none)
        0 "p1").2 0 = some { processId := "p1", parentId := some "p0" }) ∧
    ((obtainContext false (fun _ => none) 0 "p1").1 =
        { processId := "p1", parentId := none } ∧
      (obtainContext false (fun _ => none) 0 "p1").2 0 =
        some { processId := "p1", parentId := none }) :=
  ⟨(c4_child_context_links_parent
      (fun o => if o = 0 then some { processId := "p0", parentId := none } else none)
      0 "p1" { processId := "p0", parentId := none }).1 rfl,
   (c4_child_context_links_parent (fun _ => none) 0 "p1"
      { processId := "p0", parentId := none }).2 rfl⟩

/-- C5 counterexample: a top-level call whose body throws synchronously
completes with a failure but leaves a pre-existing registry entry for the
owner in place, because the synchronous throw skips the cleanup after
`originalMethod.apply`. -/
theorem c5_sync_throw_skips_cleanup_counterexample :
    (logPathInvoke { isTopLevel := true, isSensitive := false, logLevel := none }
      DEFAULT_CONFIG "C" "m" [] 0 "p1"
      (fun o => if o = 0 then some { processId := "p0", parentId := none } else none)
      (fun r => r) (BodyResult.syncThrow "boom") "T" 0 "T" 1).outcome
      = CallOutcome.thrown "boom" ∧
    (logPathInvoke { isTopLevel := true, isSensitive := false, logLevel := none }
      DEFAULT_CONFIG "C" "m" [] 0 "p1"
      (fun o => if o = 0 then some { processId := "p0", parentId := none } else none)
      (fun r => r) (BodyResult.syncThrow "boom") "T" 0 "T" 1).registry 0
      = some { processId := "p0", parentId := none } :=
  ⟨rfl, rfl⟩

/-- C5 amended: after a top-level invocation completes through any path
except a synchronous throw (sync return, async resolution or async
rejection), the owner's registry entry is absent. -/
theorem c5_top_level_completion_clears_entry (options : LogPathOptions)
    (config : StoredConfig) (cn mn : String) (args : List String)
    (owner : Nat) (fresh : String) (reg : Registry)
    (bodyEff : Registry → Registry) (body : BodyResult) (nowE : String)
    (tsE : Nat) (nowX : String) (tsX : Nat)
    (htop : options.isTopLevel = true)
    (hsync : body.isSyncThrow = false) :
    (logPathInvoke options config cn mn args owner fresh reg bodyEff body
      nowE tsE nowX tsX).registry owner = none := by
  cases body with
  | syncThrow e => simp [BodyResult.isSyncThrow] at hsync
  | syncOk v => simp [logPathInvoke, htop, deleteCtx]
  | asyncOk v => simp [logPathInvoke, htop, deleteCtx]
  | asyncErr e => simp [logPathInvoke, htop, deleteCtx]

/-- Witness for amended C5: a concrete top-level async rejection. -/
theorem c5_top_level_completion_clears_entry_witness :
    (logPathInvoke { isTopLevel := true, isSensitive := false, logLevel := none }
      DEFAULT_CONFIG "C" "m" [] 0 "p1"
      (fun o => if o = 0 then some { processId := "p0", parentId := none } else none)
      (fun r => r) (BodyResult.asyncErr "boom") "T" 0 "T" 1).registry 0 = none :=
  c5_top_level_completion_clears_entry
    { isTopLevel := true, isSensitive := false, logLevel := none }
    DEFAULT_CONFIG "C" "m" [] 0 "p1"
    (fun o => if o = 0 then some { processId := "p0", parentId := none } else none)
    (fun r => r) (BodyResult.asyncErr "boom") "T" 0 "T" 1 rfl rfl

/-- C6: with `devMode` false, `sendLog` performs no delivery at all (every
remote-forwarding path in the source is commented out), contrary to the
claimed single/multiple routing. -/
theorem c6_no_delivery_outside_dev_mode (config : StoredConfig)
    (logData : LogData) (lvl : String)
    (hdev : jsTruthy config.devMode = false) :
    sendLog config logData lvl = { consoleLines := [], deliveries := [] } := by
  simp [sendLog, hdev]

/-- Witness for C6: a concrete production single-mode config. -/
theorem c6_no_delivery_outside_dev_mode_witness :
    sendLog
      { devMode := Prim.b false, logMode := Prim.s "single"
      , endpoint := some (Prim.s "http://logs.example.com")
      , endpointParams := none }
      { processId := "p1", parentId := none, logLevel := "info"
      , className := "C", methodName := "m", action := "Enter"
      , timestamp := 0, message := "msg", error := none, args := none }
      "info" = { consoleLines := [], deliveries := [] } :=
  c6_no_delivery_outside_dev_mode
    { devMode := Prim.b false, logMode := Prim.s "single"
    , endpoint := some (Prim.s "http://logs.example.com")
    , endpointParams := none }
    { processId := "p1", parentId := none, logLevel := "info"
    , className := "C", methodName := "m", action := "Enter"
    , timestamp := 0, message := "msg", error := none, args := none }
    "info" rfl

/-- C7: divergence witness — the Error record produced by `logError` has
`action = "Error"` but its message is formatted with the literal action
`Enter`, so the message is not of the claimed form with the record's own
action. -/
theorem c7_error_record_message_says_enter :
    (logError { processId := "pid", parentId := none } "C" "m" "boom" "T" 5).action
      = "Error" ∧
    (logError { processId := "pid", parentId := none } "C" "m" "boom" "T" 5).message
      = "T [error: pid]: Enter C.m" ∧
    (logError { processId := "pid", parentId := none } "C" "m" "boom" "T" 5).message
      ≠ "T [error: pid]: Error C.m" := by
  refine ⟨rfl, rfl, ?_⟩
  decide

/-- C8: a sensitive call's Enter record carries no `args` field and is
independent of the argument values; a non-sensitive call's Enter record
carries exactly the original arguments. -/
theorem c8_sensitive_enter_omits_args (ctx : ProcessContext) (cn mn : String)
    (args args1 args2 : List String) (lvl : String) (now : String) (ts : Nat) :
    (logEntry ctx cn mn args lvl true now ts).args = none ∧
    logEntry ctx cn mn args1 lvl true now ts
      = logEntry ctx cn mn args2 lvl true now ts ∧
    (logEntry ctx cn mn args lvl false now ts).args = some args := by
  refine ⟨?_, ?_, ?_⟩ <;> simp [logEntry]

/-- One non-array `setConfig` call preserves single mode with a string
endpoint. -/
theorem applyConfig_preserves_single (st : StoredConfig) (c : PartialConfig)
    (harr : c.isArray = false) (h : singleStringInv st) :
    singleStringInv (applyConfig st c) := by
  cases hvc : validateConfig c with
  | none => simpa [applyConfig, setConfig, hvc] using h
  | some bv =>
    cases bv with
    | false => simpa [applyConfig, setConfig, hvc] using h
    | true =>
      obtain ⟨⟨b, hb⟩, hrest⟩ := validateConfig_eq_true hvc
      rcases hrest with ⟨hm, s, hep⟩ | ⟨_, harr2, _⟩
      · obtain ⟨hmode, _⟩ := h
        have hmerge : mergeConfig st c = some (overlayConfig st c) := by
          simp [mergeConfig, hm, hmode, jsTruthy]
        have happ : applyConfig st c = overlayConfig st c := by
          simp [applyConfig, setConfig, hvc, hmerge]
        rw [happ]
        exact ⟨by simp [overlayConfig, hm], s, by simp [overlayConfig, hep]⟩
      · rw [harr] at harr2
        exact Bool.noConfusion harr2

/-- C10 counterexample: one `setConfig` call whose argument is an array
value carrying multiple-mode properties passes validation and installs
`logMode='multiple'`. -/
theorem c10_array_partial_installs_multiple_counterexample :
    (List.foldl applyConfig DEFAULT_CONFIG
      [ { isArray := true, devMode := some (Prim.b false)
        , logMode := some (Prim.s "multiple"), endpoint := none
        , endpointParams := some
            [ { logLevel := Prim.s "info", endpoint := Prim.s "http://x.com" } ] } ]).logMode
      = Prim.s "multiple" := by
  decide

/-- C10 amended: starting from the default configuration, any finite
sequence of `setConfig` calls whose arguments are plain objects (not
arrays) keeps the stored configuration in single mode with a string
endpoint; multiple mode is only installable by passing an array-valued
partial. -/
theorem c10_single_invariant_nonarray (cs : List PartialConfig)
    (h : ∀ c ∈ cs, c.isArray = false) :
    singleStringInv (List.foldl applyConfig DEFAULT_CONFIG cs) := by
  have haux : ∀ (l : List PartialConfig) (st : StoredConfig),
      singleStringInv st → (∀ c ∈ l, c.isArray = false) →
      singleStringInv (List.foldl applyConfig st l) := by
    intro l
    induction l with
    | nil => intro st hst _; exact hst
    | cons c rest ih =>
      intro st hst hall
      exact ih (applyConfig st c)
        (applyConfig_preserves_single st c (hall c (by simp)) hst)
        (fun x hx => hall x (by simp [hx]))
  exact haux cs DEFAULT_CONFIG ⟨rfl, "http://default-endpoint.com", rfl⟩ h

/-- Witness for amended C10: a sequence of one valid and one invalid plain
object update. -/
theorem c10_single_invariant_nonarray_witness :
    singleStringInv (List.foldl applyConfig DEFAULT_CONFIG
      [ { isArray := false, devMode := some (Prim.b false)
        , logMode := some (Prim.s "single")
        , endpoint := some (Prim.s "http://logs.example.com")
        , endpointParams := none }
      , { isArray := false, devMode := none, logMode := none
        , endpoint := none, endpointParams := none } ]) :=
  c10_single_invariant_nonarray
    [ { isArray := false, devMode := some (Prim.b false)
      , logMode := some (Prim.s "single")
      , endpoint := some (Prim.s "http://logs.example.com")
      , endpointParams := none }
    , { isArray := false, devMode := none, logMode := none
      , endpoint := none, endpointParams := none } ]
    (by decide)
